import Mathlib

/-!
Verification of the mandatory-subscription admin subsystem (Movie-Bot-2).

The development shallowly embeds the dialog handlers of
src/app/dialog/handlers.py, the view getters of src/app/dialog/getters.py
and the membership gate of src/app/handlers/admin/check_sub_channel.py.

Modelling conventions:
* A stored channel row is the tuple laid out by the database queries, which
  the handlers index positionally: index 0 = chat id, 1 = name, 2 = username,
  3 = active status literal, 4 = an extra column never read by the handlers,
  5 = public URL.  A bot row is indexed 0 = name, 1 = username, 2 = status,
  3 = URL.
* The database query layer (src/app/database/queries/) is not among the
  provided sources; its operations are modelled from the spec where a claim
  depends on them, and such definitions carry a doc comment starting with
  "Modelled from the spec:".
* The add operation performed inside a try block can succeed, raise a
  unique-key violation, or raise any other exception; handlers are therefore
  parameterised by an abstract AddOutcome.  The composed step functions
  instantiate the outcome with the spec-modelled store.
* Python falsiness of strings and options is embedded explicitly: a missing
  value and the empty string are both falsy.  Python str.strip and
  str.lstrip are embedded as list-of-character operations.
* Navigation effects of a handler (staying in the window, switch_to, or
  done() followed by start(OPMenu.menu)) are reified in the Nav type.
-/

/-- The dialog states of src/app/states/admin/channel.py. -/
inductive DState where
  | opMenu
  | addChannelGetData
  | addChannelGetLink
  | addBotGetUsername
  | addBotGetLink
  | addBotGetName
  | channelMenu
  | channelMenuDelete
  | botMenu
  | botMenuDelete
deriving DecidableEq

/-- Navigation effect of one handler invocation. -/
inductive Nav where
  | stay
  | switchTo (s : DState)
  | doneAndStart (s : DState)
deriving DecidableEq

/-- Outcome of the add call performed inside a try block: success,
asyncpg.UniqueViolationError, or any other exception. -/
inductive AddOutcome where
  | ok
  | uniqueViolation
  | otherError
deriving DecidableEq

/-- A stored channel row, positionally indexed by the handlers. -/
structure ChannelRow where
  channel_id : Int
  channel_name : String
  channel_username : String
  status : String
  extra : String
  channel_url : String
deriving DecidableEq

/-- A stored bot row, positionally indexed by the handlers. -/
structure BotRow where
  bot_name : String
  bot_username : String
  status : String
  bot_url : String
deriving DecidableEq

/-- The channel triple stashed in dialog_data by the forward step. -/
structure ChannelScratch where
  channel_name : String
  channel_id : Int
  channel_username : String
deriving DecidableEq

/-- The per-dialog scratch mapping dialog_data; absent keys are none.
A stored empty string is distinct from an absent key, matching a Python
dict whose value can be any string. -/
structure DialogData where
  msg_type : Option String
  channel_data : Option ChannelScratch
  channel_id : Option Int
  bot_username : Option String
  bot_url : Option String
deriving DecidableEq

/-- A dialog_data with no keys set, as at the start of a fresh dialog. -/
def emptyDialog : DialogData := ⟨none, none, none, none, none⟩

/-- The message.forward_from_chat payload the forward handler reads.
Python treats a missing or empty full_name and username as falsy, so the
empty string models both. -/
structure ForwardChat where
  chat_id : Int
  full_name : String
  username : String
deriving DecidableEq

/-- Python falsiness of an optional text: None and the empty string. -/
def blankText : Option String → Bool
  | none => true
  | some s => s == ""

/-- Embedding of the Python str.strip() calls of the handlers: whitespace
removed from both ends. -/
def pyStrip (s : String) : String :=
  ⟨((s.data.dropWhile Char.isWhitespace).reverse.dropWhile Char.isWhitespace).reverse⟩

/-- Embedding of the Python lstrip call on the at-sign: every leading
at-sign character is removed. -/
def pyLstripAt (s : String) : String :=
  ⟨s.data.dropWhile (fun c => c == '@')⟩

/-- The spec wording of the bot-handle normalisation, for comparison with
the source: surrounding whitespace stripped, then ONE leading at-sign
removed and the rest of the string kept as given. -/
def specStripOneAt (s : String) : String :=
  let t := pyStrip s
  if t.data.head? = some '@' then ⟨t.data.tail⟩ else t

/-- The channel table. -/
structure ChannelStore where
  rows : List ChannelRow
deriving DecidableEq

/-- The bot table. -/
structure BotStore where
  rows : List BotRow
deriving DecidableEq

/-- Modelled from the spec: the get operation of the entity store
(src/app/database/queries/channels.py is not among the provided sources);
per the spec it returns the entity with the key or absent. -/
def getChannel (store : ChannelStore) (channel_id : Int) : Option ChannelRow :=
  store.rows.find? (fun r => r.channel_id == channel_id)

/-- Modelled from the spec: get_bot of src/app/database/queries/bots.py,
keyed by the public handle. -/
def getBot (store : BotStore) (bot_username : String) : Option BotRow :=
  store.rows.find? (fun r => r.bot_username == bot_username)

/-- Modelled from the spec: update_channel_status persists the new status
literal for the keyed row and is a no-op if the key is absent. -/
def updateChannelStatus (store : ChannelStore) (new_status : String)
    (channel_id : Int) : ChannelStore :=
  ⟨store.rows.map (fun r =>
    if r.channel_id == channel_id then { r with status := new_status } else r)⟩

/-- Modelled from the spec: update_bot_status persists the new status
literal for the keyed row and is a no-op if the key is absent. -/
def updateBotStatus (store : BotStore) (new_status : String)
    (bot_username : String) : BotStore :=
  ⟨store.rows.map (fun r =>
    if r.bot_username == bot_username then { r with status := new_status } else r)⟩

/-- Modelled from the spec: add_channel fails with a duplicate-key
violation when the identifier is already present, leaving the store
unchanged, and otherwise inserts the row. -/
def addChannelModel (store : ChannelStore) (row : ChannelRow) :
    AddOutcome × ChannelStore :=
  match getChannel store row.channel_id with
  | some _ => (AddOutcome.uniqueViolation, store)
  | none => (AddOutcome.ok, ⟨store.rows ++ [row]⟩)

/-- Modelled from the spec: add_bot fails with a duplicate-key violation
when the handle is already present, leaving the store unchanged, and
otherwise inserts the row. -/
def addBotModel (store : BotStore) (row : BotRow) : AddOutcome × BotStore :=
  match getBot store row.bot_username with
  | some _ => (AddOutcome.uniqueViolation, store)
  | none => (AddOutcome.ok, ⟨store.rows ++ [row]⟩)

/-- The arguments handle_channel_url_input passes to add_channel. -/
structure AddChannelArgs where
  channel_id : Int
  channel_name : String
  channel_username : String
  channel_url : String
deriving DecidableEq

/-- The arguments handle_bot_name_input passes to add_bot. -/
structure AddBotArgs where
  bot_name : String
  bot_username : String
  bot_url : String
deriving DecidableEq

/-- Result of one run of handle_channel_url_input: the updated
dialog_data, the navigation effect, and the add call issued (none if the
handler returned before reaching the try block). -/
structure ChannelUrlResult where
  dlg : DialogData
  nav : Nav
  addCall : Option AddChannelArgs
deriving DecidableEq

/-- Result of one run of handle_bot_name_input. -/
structure BotNameResult where
  dlg : DialogData
  nav : Nav
  addCall : Option AddBotArgs
deriving DecidableEq

/-- handlers.py handle_channel_forward.  A non-forwarded message sets the
discriminator not_forwarded and stays; a forwarded chat whose id is already
stored sets already_exists and switches to the URL window without stashing;
otherwise the extracted triple is stashed and the dialog switches to the
URL window.  The Python fallbacks full_name or a default, and username or
the empty string, are the falsy checks on the embedded strings. -/
def handle_channel_forward (fwd : Option ForwardChat) (d : DialogData)
    (store : ChannelStore) : DialogData × Nav :=
  match fwd with
  | none => ({ d with msg_type := some "not_forwarded" }, Nav.stay)
  | some chat =>
    match getChannel store chat.chat_id with
    | some _ =>
      ({ d with msg_type := some "already_exists" },
        Nav.switchTo DState.addChannelGetLink)
    | none =>
      let channel_data : ChannelScratch :=
        ⟨if chat.full_name == "" then "Unnamed Channel" else chat.full_name,
          chat.chat_id,
          chat.username⟩
      ({ d with channel_data := some channel_data },
        Nav.switchTo DState.addChannelGetLink)

/-- handlers.py handle_channel_url_input.  Non-text input sets error_format
and stays; missing stashed channel data sets error and ends the flow to the
OP menu without calling add; otherwise add is called and, by the finally
clause, the flow ends to the OP menu on every outcome, with the
discriminator recording a duplicate or other failure. -/
def handle_channel_url_input (text : Option String) (d : DialogData)
    (outcome : AddOutcome) : ChannelUrlResult :=
  if blankText text then
    ⟨{ d with msg_type := some "error_format" }, Nav.stay, none⟩
  else
    match d.channel_data with
    | none =>
      ⟨{ d with msg_type := some "error" }, Nav.doneAndStart DState.opMenu, none⟩
    | some channel_data =>
      let channel_url := pyStrip (text.getD "")
      let call : Option AddChannelArgs :=
        some ⟨channel_data.channel_id, channel_data.channel_name,
          channel_data.channel_username, channel_url⟩
      match outcome with
      | AddOutcome.ok => ⟨d, Nav.doneAndStart DState.opMenu, call⟩
      | AddOutcome.uniqueViolation =>
        ⟨{ d with msg_type := some "already_exists" },
          Nav.doneAndStart DState.opMenu, call⟩
      | AddOutcome.otherError =>
        ⟨{ d with msg_type := some "error" },
          Nav.doneAndStart DState.opMenu, call⟩

/-- handlers.py handle_bot_username_input.  Non-text input sets
error_format and stays; the handle is the text stripped of surrounding
whitespace with every leading at-sign removed; an existing handle sets
already_exists and stays; otherwise the handle is stashed and the dialog
switches to the URL window. -/
def handle_bot_username_input (text : Option String) (d : DialogData)
    (store : BotStore) : DialogData × Nav :=
  if blankText text then
    ({ d with msg_type := some "error_format" }, Nav.stay)
  else
    let bot_username := pyLstripAt (pyStrip (text.getD ""))
    match getBot store bot_username with
    | some _ => ({ d with msg_type := some "already_exists" }, Nav.stay)
    | none =>
      ({ d with bot_username := some bot_username },
        Nav.switchTo DState.addBotGetLink)

/-- handlers.py handle_bot_url_input. -/
def handle_bot_url_input (text : Option String) (d : DialogData) :
    DialogData × Nav :=
  if blankText text then
    ({ d with msg_type := some "error_format" }, Nav.stay)
  else
    ({ d with bot_url := some (pyStrip (text.getD "")) },
      Nav.switchTo DState.addBotGetName)

/-- handlers.py handle_default_bot_url: derives the canonical deep link
from the stashed handle. -/
def handle_default_bot_url (d : DialogData) : DialogData × Nav :=
  if blankText d.bot_username then (d, Nav.stay)
  else
    ({ d with bot_url := some ("https://t.me/" ++ d.bot_username.getD "") },
      Nav.switchTo DState.addBotGetName)

/-- handlers.py handle_bot_name_input.  Non-text input sets error_format
and stays; a missing stashed handle or URL sets error and ends the flow to
the OP menu without calling add; otherwise add is called and, by the
finally clause, the flow ends to the OP menu on every outcome. -/
def handle_bot_name_input (text : Option String) (d : DialogData)
    (outcome : AddOutcome) : BotNameResult :=
  if blankText text then
    ⟨{ d with msg_type := some "error_format" }, Nav.stay, none⟩
  else
    let bot_name := pyStrip (text.getD "")
    if blankText d.bot_username || blankText d.bot_url then
      ⟨{ d with msg_type := some "error" }, Nav.doneAndStart DState.opMenu, none⟩
    else
      let call : Option AddBotArgs :=
        some ⟨bot_name, d.bot_username.getD "", d.bot_url.getD ""⟩
      match outcome with
      | AddOutcome.ok => ⟨d, Nav.doneAndStart DState.opMenu, call⟩
      | AddOutcome.uniqueViolation =>
        ⟨{ d with msg_type := some "already_exists" },
          Nav.doneAndStart DState.opMenu, call⟩
      | AddOutcome.otherError =>
        ⟨{ d with msg_type := some "error" },
          Nav.doneAndStart DState.opMenu, call⟩

/-- The string that toggles the stored OP status literal: "True" becomes
"False" and anything else becomes "True" (handlers.py lines 223-224 and
472-473). -/
def toggleStatus (current_status : String) : String :=
  if current_status == "True" then "False" else "True"

/-- handlers.py handle_toggle_channel_op_status.  A falsy channel_id or an
absent row returns before the trailing switch_to; otherwise the toggled
status literal is persisted and the dialog switches back to the channel
detail menu. -/
def handle_toggle_channel_op_status (d : DialogData) (store : ChannelStore) :
    ChannelStore × Nav :=
  match d.channel_id with
  | none => (store, Nav.stay)
  | some channel_id =>
    if channel_id == 0 then (store, Nav.stay)
    else
      match getChannel store channel_id with
      | none => (store, Nav.stay)
      | some channel_data =>
        (updateChannelStatus store (toggleStatus channel_data.status) channel_id,
          Nav.switchTo DState.channelMenu)

/-- handlers.py handle_toggle_bot_op_status, the bot counterpart. -/
def handle_toggle_bot_op_status (d : DialogData) (store : BotStore) :
    BotStore × Nav :=
  if blankText d.bot_username then (store, Nav.stay)
  else
    match getBot store (d.bot_username.getD "") with
    | none => (store, Nav.stay)
    | some bot_data =>
      (updateBotStatus store (toggleStatus bot_data.status)
        (d.bot_username.getD ""),
        Nav.switchTo DState.botMenu)

/-- Builds the row the spec-modelled add_channel inserts from the handler
arguments; the initial status and the extra column are whatever defaults
the (absent) query layer supplies, so they stay parameters. -/
def channelRowOfArgs (a : AddChannelArgs) (status extra : String) : ChannelRow :=
  ⟨a.channel_id, a.channel_name, a.channel_username, status, extra, a.channel_url⟩

/-- Builds the row the spec-modelled add_bot inserts from the handler
arguments. -/
def botRowOfArgs (a : AddBotArgs) (status : String) : BotRow :=
  ⟨a.bot_name, a.bot_username, status, a.bot_url⟩

/-- One URL step run against the spec-modelled store: the add outcome fed
to the handler is the one the modelled add produces on the issued call, and
the resulting store is returned alongside.  The add call issued does not
depend on the outcome, so it is read off the ok run. -/
def channel_url_step_db (text : Option String) (d : DialogData)
    (store : ChannelStore) (status extra : String) :
    ChannelUrlResult × ChannelStore :=
  match (handle_channel_url_input text d AddOutcome.ok).addCall with
  | none => (handle_channel_url_input text d AddOutcome.ok, store)
  | some a =>
    let res := addChannelModel store (channelRowOfArgs a status extra)
    (handle_channel_url_input text d res.1, res.2)

/-- One bot-name step run against the spec-modelled store. -/
def bot_name_step_db (text : Option String) (d : DialogData)
    (store : BotStore) (status : String) : BotNameResult × BotStore :=
  match (handle_bot_name_input text d AddOutcome.ok).addCall with
  | none => (handle_bot_name_input text d AddOutcome.ok, store)
  | some a =>
    let res := addBotModel store (botRowOfArgs a status)
    (handle_bot_name_input text d res.1, res.2)

/-- The roles that satisfy the membership gate
(check_sub_channel.py lines 26 and 46). -/
def gateRoles : List String := ["member", "administrator", "creator"]

/-- The gate loop of check_channel_sub_message and check_channel_sub_call:
iterate over the stored channels in order; query the membership role only
when the stored status literal is "True"; append the channel to the
unsatisfied list when the role is not member, administrator or creator.
The first component lists the chat ids queried, in query order; the second
is the accumulated unsatisfied list. -/
def check_channel_sub (role : Int → String) :
    List ChannelRow → List Int × List ChannelRow
  | [] => ([], [])
  | channel :: rest =>
    if channel.status == "True" then
      let user_status := role channel.channel_id
      let r := check_channel_sub role rest
      if gateRoles.contains user_status then
        (channel.channel_id :: r.1, r.2)
      else
        (channel.channel_id :: r.1, channel :: r.2)
    else
      check_channel_sub role rest

/-- The dict returned by getters.py get_channel_info_data. -/
structure ChannelView where
  channel_data : String
  op_button : String
deriving DecidableEq

/-- The dict returned by getters.py get_bot_info_data. -/
structure BotView where
  bot_data : String
  op_button : String
deriving DecidableEq

/-- The formatted channel description of get_channel_info_data; the
username falls back to a placeholder when falsy, and the status line
depends on the stored literal being "True". -/
def channelInfoText (c : ChannelRow) : String :=
  "📢 <b>Полная информация о канале</b>\n\n🆔 <b>ID:</b> <code>"
    ++ toString c.channel_id
    ++ "</code>\n📛 <b>Название:</b> "
    ++ c.channel_name
    ++ "\n🔗 <b>Username:</b> @"
    ++ (if c.channel_username == "" then "не указан" else c.channel_username)
    ++ "\n📶 <b>Статус в ОП:</b> "
    ++ (if c.status == "True" then "✅ Активен" else "❌ Неактивен")
    ++ "\n🔗 <b>Ссылка:</b> "
    ++ c.channel_url
    ++ "\n"

/-- getters.py get_channel_info_data: an absent row renders the
not-found placeholder with the disabled toggle label; a present row
renders the formatted fields and a toggle label chosen by the status. -/
def get_channel_info_data (store : ChannelStore) (channel_id : Int) :
    ChannelView :=
  match getChannel store channel_id with
  | none => ⟨"❌ Канал не найден", "—"⟩
  | some channel_data =>
    ⟨channelInfoText channel_data,
      if channel_data.status == "True" then "🚫 Убрать из ОП"
      else "➕ Добавить в ОП"⟩

/-- The formatted bot description of get_bot_info_data. -/
def botInfoText (b : BotRow) : String :=
  "🤖 <b>Полная информация о боте</b>\n\n📛 <b>Название:</b> "
    ++ b.bot_name
    ++ "\n🔗 <b>Username:</b> @"
    ++ b.bot_username
    ++ "\n📶 <b>Статус в ОП:</b> "
    ++ (if b.status == "True" then "✅ Активен" else "❌ Неактивен")
    ++ "\n🔗 <b>Ссылка:</b> "
    ++ b.bot_url
    ++ "\n"

/-- getters.py get_bot_info_data. -/
def get_bot_info_data (store : BotStore) (bot_username : String) : BotView :=
  match getBot store bot_username with
  | none => ⟨"❌ Бот не найден", "—"⟩
  | some bot_data =>
    ⟨botInfoText bot_data,
      if bot_data.status == "True" then "🚫 Убрать из ОП"
      else "➕ Добавить в ОП"⟩

/-- Concrete fixtures used by the closed counterexample and witness
statements. -/
def exChannelRow : ChannelRow := ⟨1, "Chan", "chan", "True", "", "https://t.me/chan"⟩

/-- A store holding exactly the fixture channel. -/
def exChannelStore : ChannelStore := ⟨[exChannelRow]⟩

/-- An empty channel store. -/
def emptyChannelStore : ChannelStore := ⟨[]⟩

/-- An empty bot store. -/
def emptyBotStore : BotStore := ⟨[]⟩

/-- A fixture bot row. -/
def exBotRow : BotRow := ⟨"Example Bot", "examplebot", "False", "https://t.me/examplebot"⟩

/-- A store holding exactly the fixture bot. -/
def exBotStore : BotStore := ⟨[exBotRow]⟩

/-! ## Helper lemmas -/

/-- Fetching a channel after a status update returns the row with only the
status field replaced. -/
theorem find_update_channel (rows : List ChannelRow) (st : String) (id : Int) :
    (rows.map (fun r =>
        if r.channel_id == id then { r with status := st } else r)).find?
        (fun r => r.channel_id == id) =
      (rows.find? (fun r => r.channel_id == id)).map
        (fun r => { r with status := st }) := by
  induction rows with
  | nil => rfl
  | cons a rest ih =>
    by_cases h : a.channel_id = id
    · have hb : (a.channel_id == id) = true := beq_iff_eq.mpr h
      simp only [List.map_cons, hb, if_true, List.find?_cons]
      rfl
    · have hb : (a.channel_id == id) = false := beq_eq_false_iff_ne.mpr h
      simp only [List.map_cons, hb, Bool.false_eq_true, if_false,
        List.find?_cons, ih]

/-- The bot counterpart of find_update_channel. -/
theorem find_update_bot (rows : List BotRow) (st : String) (u : String) :
    (rows.map (fun r =>
        if r.bot_username == u then { r with status := st } else r)).find?
        (fun r => r.bot_username == u) =
      (rows.find? (fun r => r.bot_username == u)).map
        (fun r => { r with status := st }) := by
  induction rows with
  | nil => rfl
  | cons a rest ih =>
    by_cases h : a.bot_username = u
    · have hb : (a.bot_username == u) = true := beq_iff_eq.mpr h
      simp only [List.map_cons, hb, if_true, List.find?_cons]
      rfl
    · have hb : (a.bot_username == u) = false := beq_eq_false_iff_ne.mpr h
      simp only [List.map_cons, hb, Bool.false_eq_true, if_false,
        List.find?_cons, ih]

/-- getChannel after updateChannelStatus on the same key. -/
theorem getChannel_update (store : ChannelStore) (st : String) (id : Int) :
    getChannel (updateChannelStatus store st id) id =
      (getChannel store id).map (fun r => { r with status := st }) := by
  unfold getChannel updateChannelStatus
  exact find_update_channel store.rows st id

/-- getBot after updateBotStatus on the same key. -/
theorem getBot_update (store : BotStore) (st : String) (u : String) :
    getBot (updateBotStatus store st u) u =
      (getBot store u).map (fun r => { r with status := st }) := by
  unfold getBot updateBotStatus
  exact find_update_bot store.rows st u

/-! ## Claim theorems -/

/-- C1: the membership gate queries the membership endpoint exactly for the
channels whose stored active-status literal is "True", in list order, and a
queried channel lands in the unsatisfied list iff the returned role is not
member, administrator or creator; the unsatisfied list preserves the
iteration order of the channel list (it is the order-preserving filter of
that list). -/
theorem membership_gate_active_only (role : Int → String)
    (channels : List ChannelRow) :
    (check_channel_sub role channels).1 =
      (channels.filter (fun c => c.status == "True")).map
        (fun c => c.channel_id) ∧
    (check_channel_sub role channels).2 =
      channels.filter
        (fun c => c.status == "True" &&
          !(gateRoles.contains (role c.channel_id))) ∧
    ∀ i ∈ (check_channel_sub role channels).1,
      ∃ c ∈ channels, c.channel_id = i ∧ c.status = "True" := by
  have key : ∀ chs : List ChannelRow,
      (check_channel_sub role chs).1 =
        (chs.filter (fun c => c.status == "True")).map
          (fun c => c.channel_id) ∧
      (check_channel_sub role chs).2 =
        chs.filter
          (fun c => c.status == "True" &&
            !(gateRoles.contains (role c.channel_id))) := by
    intro chs
    induction chs with
    | nil => exact ⟨rfl, rfl⟩
    | cons c rest ih =>
      by_cases hs : c.status == "True"
      · by_cases hr : role c.channel_id ∈ gateRoles
        · simp [check_channel_sub, hs, hr, ih.1, ih.2, List.filter]
        · simp [check_channel_sub, hs, hr, ih.1, ih.2, List.filter]
      · simp [check_channel_sub, hs, ih.1, ih.2, List.filter]
  refine ⟨(key channels).1, (key channels).2, ?_⟩
  intro i hi
  rw [(key channels).1] at hi
  obtain ⟨c, hc, rfl⟩ := List.mem_map.mp hi
  exact ⟨c, (List.mem_filter.mp hc).1, rfl,
    of_decide_eq_true (List.mem_filter.mp hc).2⟩

/-- C5: for a stored entity whose active-status literal is "True" or
"False", one toggle reads the current status, persists the other literal
and returns to the detail view, and applying the toggle twice restores the
original status; stated for both the channel and the bot toggle handlers
against the spec-modelled store. -/
theorem toggle_status_roundtrip
    (store : ChannelStore) (d : DialogData) (channel_id : Int) (row : ChannelRow)
    (hid : d.channel_id = some channel_id) (h0 : channel_id ≠ 0)
    (hget : getChannel store channel_id = some row)
    (hS : row.status = "True" ∨ row.status = "False")
    (bstore : BotStore) (d2 : DialogData) (u : String) (brow : BotRow)
    (hu : d2.bot_username = some u) (hu0 : u ≠ "")
    (hbget : getBot bstore u = some brow)
    (hbS : brow.status = "True" ∨ brow.status = "False") :
    (handle_toggle_channel_op_status d store).2 =
      Nav.switchTo DState.channelMenu ∧
    getChannel (handle_toggle_channel_op_status d store).1 channel_id =
      some { row with status := toggleStatus row.status } ∧
    (row.status = "True" → toggleStatus row.status = "False") ∧
    (row.status = "False" → toggleStatus row.status = "True") ∧
    getChannel (handle_toggle_channel_op_status d
      (handle_toggle_channel_op_status d store).1).1 channel_id = some row ∧
    (handle_toggle_bot_op_status d2 bstore).2 = Nav.switchTo DState.botMenu ∧
    getBot (handle_toggle_bot_op_status d2 bstore).1 u =
      some { brow with status := toggleStatus brow.status } ∧
    (brow.status = "True" → toggleStatus brow.status = "False") ∧
    (brow.status = "False" → toggleStatus brow.status = "True") ∧
    getBot (handle_toggle_bot_op_status d2
      (handle_toggle_bot_op_status d2 bstore).1).1 u = some brow := by
  have hb0 : (channel_id == (0 : Int)) = false := beq_eq_false_iff_ne.mpr h0
  have hbu : (u == "") = false := beq_eq_false_iff_ne.mpr hu0
  have hstep : ∀ (s : ChannelStore) (r : ChannelRow),
      getChannel s channel_id = some r →
      handle_toggle_channel_op_status d s =
        (updateChannelStatus s (toggleStatus r.status) channel_id,
          Nav.switchTo DState.channelMenu) := by
    intro s r hr
    simp [handle_toggle_channel_op_status, hid, hb0, hr]
  have hbstep : ∀ (s : BotStore) (r : BotRow),
      getBot s u = some r →
      handle_toggle_bot_op_status d2 s =
        (updateBotStatus s (toggleStatus r.status) u,
          Nav.switchTo DState.botMenu) := by
    intro s r hr
    simp [handle_toggle_bot_op_status, hu, blankText, hbu, hr]
  have htt : toggleStatus (toggleStatus row.status) = row.status := by
    rcases hS with h | h <;> rw [h] <;> decide
  have hbtt : toggleStatus (toggleStatus brow.status) = brow.status := by
    rcases hbS with h | h <;> rw [h] <;> decide
  have hg1 : getChannel (handle_toggle_channel_op_status d store).1 channel_id =
      some { row with status := toggleStatus row.status } := by
    rw [hstep store row hget]
    show getChannel (updateChannelStatus store (toggleStatus row.status)
      channel_id) channel_id = some { row with status := toggleStatus row.status }
    rw [getChannel_update, hget]
    rfl
  have hg2 : getChannel (handle_toggle_channel_op_status d
      (handle_toggle_channel_op_status d store).1).1 channel_id = some row := by
    rw [hstep _ _ hg1]
    show getChannel (updateChannelStatus (handle_toggle_channel_op_status d store).1
      (toggleStatus (toggleStatus row.status)) channel_id) channel_id = some row
    rw [getChannel_update, hg1]
    show some { row with status := toggleStatus (toggleStatus row.status) } = some row
    rw [htt]
  have hbg1 : getBot (handle_toggle_bot_op_status d2 bstore).1 u =
      some { brow with status := toggleStatus brow.status } := by
    rw [hbstep bstore brow hbget]
    show getBot (updateBotStatus bstore (toggleStatus brow.status) u) u =
      some { brow with status := toggleStatus brow.status }
    rw [getBot_update, hbget]
    rfl
  have hbg2 : getBot (handle_toggle_bot_op_status d2
      (handle_toggle_bot_op_status d2 bstore).1).1 u = some brow := by
    rw [hbstep _ _ hbg1]
    show getBot (updateBotStatus (handle_toggle_bot_op_status d2 bstore).1
      (toggleStatus (toggleStatus brow.status)) u) u = some brow
    rw [getBot_update, hbg1]
    show some { brow with status := toggleStatus (toggleStatus brow.status) } = some brow
    rw [hbtt]
  refine ⟨by rw [hstep store row hget], hg1, ?_, ?_, hg2,
    by rw [hbstep bstore brow hbget], hbg1, ?_, ?_, hbg2⟩
  · intro h; rw [h]; decide
  · intro h; rw [h]; decide
  · intro h; rw [h]; decide
  · intro h; rw [h]; decide

/-- Closed witness for toggle_status_roundtrip at the concrete fixtures. -/
theorem toggle_status_roundtrip_witness :
    getChannel (handle_toggle_channel_op_status ⟨none, none, some 1, none, none⟩
      exChannelStore).1 1 =
      some { exChannelRow with status := toggleStatus exChannelRow.status } ∧
    getChannel (handle_toggle_channel_op_status ⟨none, none, some 1, none, none⟩
      (handle_toggle_channel_op_status ⟨none, none, some 1, none, none⟩
        exChannelStore).1).1 1 = some exChannelRow ∧
    getBot (handle_toggle_bot_op_status ⟨none, none, none, some "examplebot", none⟩
      (handle_toggle_bot_op_status ⟨none, none, none, some "examplebot", none⟩
        exBotStore).1).1 "examplebot" = some exBotRow := by
  have h := toggle_status_roundtrip exChannelStore
    ⟨none, none, some 1, none, none⟩ 1 exChannelRow rfl (by decide) (by decide)
    (Or.inl rfl) exBotStore ⟨none, none, none, some "examplebot", none⟩
    "examplebot" exBotRow rfl (by decide) (by decide) (Or.inr rfl)
  exact ⟨h.2.1, h.2.2.2.2.1, h.2.2.2.2.2.2.2.2.2⟩

/-- C9: for any prior stored status value, including values that are
neither "True" nor "False", the toggle persists exactly "False" when the
prior value is "True" and exactly "True" otherwise, so the persisted
status is always one of the two literals; stated for both handlers. -/
theorem toggle_status_totality
    (store : ChannelStore) (d : DialogData) (channel_id : Int) (row : ChannelRow)
    (hid : d.channel_id = some channel_id) (h0 : channel_id ≠ 0)
    (hget : getChannel store channel_id = some row)
    (bstore : BotStore) (d2 : DialogData) (u : String) (brow : BotRow)
    (hu : d2.bot_username = some u) (hu0 : u ≠ "")
    (hbget : getBot bstore u = some brow) :
    getChannel (handle_toggle_channel_op_status d store).1 channel_id =
      some { row with
        status := if row.status = "True" then "False" else "True" } ∧
    getBot (handle_toggle_bot_op_status d2 bstore).1 u =
      some { brow with
        status := if brow.status = "True" then "False" else "True" } ∧
    (∀ s : String, toggleStatus s = "True" ∨ toggleStatus s = "False") := by
  have hb0 : (channel_id == (0 : Int)) = false := beq_eq_false_iff_ne.mpr h0
  have hbu : (u == "") = false := beq_eq_false_iff_ne.mpr hu0
  have hiff : ∀ s : String,
      toggleStatus s = if s = "True" then "False" else "True" := by
    intro s
    by_cases h : s = "True" <;> simp [toggleStatus, h]
  have hstep : handle_toggle_channel_op_status d store =
      (updateChannelStatus store (toggleStatus row.status) channel_id,
        Nav.switchTo DState.channelMenu) := by
    simp [handle_toggle_channel_op_status, hid, hb0, hget]
  have hbstep : handle_toggle_bot_op_status d2 bstore =
      (updateBotStatus bstore (toggleStatus brow.status) u,
        Nav.switchTo DState.botMenu) := by
    simp [handle_toggle_bot_op_status, hu, blankText, hbu, hbget]
  refine ⟨?_, ?_, ?_⟩
  · rw [hstep]
    show getChannel (updateChannelStatus store (toggleStatus row.status)
      channel_id) channel_id = _
    rw [getChannel_update, hget, hiff row.status]
    rfl
  · rw [hbstep]
    show getBot (updateBotStatus bstore (toggleStatus brow.status) u) u = _
    rw [getBot_update, hbget, hiff brow.status]
    rfl
  · intro s
    by_cases h : s = "True" <;> simp [toggleStatus, h]

/-- Closed witness for toggle_status_totality on a row whose stored status
is a junk literal. -/
theorem toggle_status_totality_witness :
    getChannel (handle_toggle_channel_op_status ⟨none, none, some 7, none, none⟩
      (ChannelStore.mk [⟨7, "Junk", "junk", "banana", "", "u"⟩])).1 7 =
      some ⟨7, "Junk", "junk", "True", "", "u"⟩ ∧
    getBot (handle_toggle_bot_op_status ⟨none, none, none, some "examplebot", none⟩
      exBotStore).1 "examplebot" =
      some { exBotRow with status := "True" } := by
  have h := toggle_status_totality
    (ChannelStore.mk [⟨7, "Junk", "junk", "banana", "", "u"⟩])
    ⟨none, none, some 7, none, none⟩ 7 ⟨7, "Junk", "junk", "banana", "", "u"⟩
    rfl (by decide) (by decide) exBotStore
    ⟨none, none, none, some "examplebot", none⟩ "examplebot" exBotRow rfl
    (by decide) (by decide)
  refine ⟨?_, ?_⟩
  · have h1 := h.1
    simpa using h1
  · have h2 := h.2.1
    simpa [exBotRow] using h2

/-- C3: whenever the terminal add step (channel URL step or bot name step)
actually issues the add call, the flow ends and control returns to the
main OP menu, on every outcome of the call. -/
theorem add_step_always_exits (t : Option String) (d : DialogData)
    (o : AddOutcome) (t2 : Option String) (d2 : DialogData) (o2 : AddOutcome) :
    ((handle_channel_url_input t d o).addCall.isSome = true →
      (handle_channel_url_input t d o).nav = Nav.doneAndStart DState.opMenu) ∧
    ((handle_bot_name_input t2 d2 o2).addCall.isSome = true →
      (handle_bot_name_input t2 d2 o2).nav = Nav.doneAndStart DState.opMenu) := by
  constructor
  · intro h
    by_cases hb : blankText t
    · simp [handle_channel_url_input, hb] at h
    · rcases hd : d.channel_data with _ | cd
      · simp [handle_channel_url_input, hb, hd] at h
      · cases o <;> simp [handle_channel_url_input, hb, hd]
  · intro h
    by_cases hb : blankText t2
    · simp [handle_bot_name_input, hb] at h
    · by_cases hm : (blankText d2.bot_username || blankText d2.bot_url) = true
      · simp [handle_bot_name_input, hb, hm] at h
      · cases o2 <;> simp [handle_bot_name_input, hb, hm]

/-- Closed witness for add_step_always_exits: the add call is issued and
the flow exits to the OP menu even on a failing outcome. -/
theorem add_step_always_exits_witness :
    (handle_channel_url_input (some "https://t.me/chan")
      ⟨none, some ⟨"Chan", 1, "chan"⟩, none, none, none⟩
      AddOutcome.otherError).nav = Nav.doneAndStart DState.opMenu ∧
    (handle_bot_name_input (some "Example Bot")
      ⟨none, none, none, some "examplebot", some "https://t.me/examplebot"⟩
      AddOutcome.uniqueViolation).nav = Nav.doneAndStart DState.opMenu := by
  have h := add_step_always_exits (some "https://t.me/chan")
    ⟨none, some ⟨"Chan", 1, "chan"⟩, none, none, none⟩ AddOutcome.otherError
    (some "Example Bot")
    ⟨none, none, none, some "examplebot", some "https://t.me/examplebot"⟩
    AddOutcome.uniqueViolation
  exact ⟨h.1 (by decide), h.2 (by decide)⟩

/-- C10: at the channel URL step with no stashed channel data, a text URL
sets the discriminator to error, terminates the flow to the main menu,
never issues the add call, and leaves the spec-modelled store unchanged. -/
theorem channel_url_missing_scratch (t : Option String) (d : DialogData)
    (o : AddOutcome) (store : ChannelStore) (status extra : String)
    (hb : blankText t = false) (hd : d.channel_data = none) :
    handle_channel_url_input t d o =
      ⟨{ d with msg_type := some "error" }, Nav.doneAndStart DState.opMenu,
        none⟩ ∧
    (channel_url_step_db t d store status extra).2 = store := by
  have h1 : ∀ o' : AddOutcome, handle_channel_url_input t d o' =
      ⟨{ d with msg_type := some "error" }, Nav.doneAndStart DState.opMenu,
        none⟩ := by
    intro o'
    simp [handle_channel_url_input, hb, hd]
  refine ⟨h1 o, ?_⟩
  simp [channel_url_step_db, h1 AddOutcome.ok]

/-- Closed witness for channel_url_missing_scratch at a fresh dialog. -/
theorem channel_url_missing_scratch_witness :
    handle_channel_url_input (some "https://t.me/chan") emptyDialog
      AddOutcome.ok =
      ⟨{ emptyDialog with msg_type := some "error" },
        Nav.doneAndStart DState.opMenu, none⟩ ∧
    (channel_url_step_db (some "https://t.me/chan") emptyDialog
      exChannelStore "False" "").2 = exChannelStore :=
  channel_url_missing_scratch (some "https://t.me/chan") emptyDialog
    AddOutcome.ok exChannelStore "False" "" (by decide) rfl

/-- C2 counterexample: forwarding a post from the already-stored chat 1
sets the discriminator to already-exists and advances to the URL step, but
the subsequent URL submission issues NO add call at all, so the claimed
subsequent duplicate-key failure of add never happens. -/
theorem channel_dup_forward_cex :
    (handle_channel_forward (some ⟨1, "Chan", "chan"⟩) emptyDialog
      exChannelStore).2 = Nav.switchTo DState.addChannelGetLink ∧
    (handle_channel_url_input (some "https://t.me/chan")
      (handle_channel_forward (some ⟨1, "Chan", "chan"⟩) emptyDialog
        exChannelStore).1 AddOutcome.ok).addCall.isSome = false := by decide

/-- C2 amended: on a forwarded message whose chat id is already stored the
handler sets the discriminator to already-exists and advances to the URL
state without stashing the triple and without returning to the main menu;
the subsequent URL submission then finds no stashed data, sets the
discriminator to error, ends the flow to the main menu and never invokes
add, so no second record is created and the existing record is
unmodified. -/
theorem channel_dup_forward_amended (store : ChannelStore) (chat : ForwardChat)
    (d : DialogData) (row : ChannelRow)
    (hget : getChannel store chat.chat_id = some row)
    (hscratch : d.channel_data = none)
    (url : Option String) (hurl : blankText url = false)
    (o : AddOutcome) (status extra : String) :
    handle_channel_forward (some chat) d store =
      ({ d with msg_type := some "already_exists" },
        Nav.switchTo DState.addChannelGetLink) ∧
    handle_channel_url_input url
      (handle_channel_forward (some chat) d store).1 o =
      ⟨{ d with msg_type := some "error" }, Nav.doneAndStart DState.opMenu,
        none⟩ ∧
    (channel_url_step_db url (handle_channel_forward (some chat) d store).1
      store status extra).2 = store := by
  have h1 : handle_channel_forward (some chat) d store =
      ({ d with msg_type := some "already_exists" },
        Nav.switchTo DState.addChannelGetLink) := by
    simp [handle_channel_forward, hget]
  have hd2 : (handle_channel_forward (some chat) d store).1.channel_data =
      none := by
    rw [h1]
    exact hscratch
  have h2 : ∀ o' : AddOutcome, handle_channel_url_input url
      (handle_channel_forward (some chat) d store).1 o' =
      ⟨{ d with msg_type := some "error" }, Nav.doneAndStart DState.opMenu,
        none⟩ := by
    intro o'
    rw [h1]
    show handle_channel_url_input url { d with msg_type := some "already_exists" } o' = _
    simp [handle_channel_url_input, hurl, hscratch]
  refine ⟨h1, h2 o, ?_⟩
  simp [channel_url_step_db, h2 AddOutcome.ok]

/-- Closed witness for channel_dup_forward_amended at the concrete
fixtures. -/
theorem channel_dup_forward_amended_witness :
    handle_channel_forward (some ⟨1, "Chan", "chan"⟩) emptyDialog
      exChannelStore =
      ({ emptyDialog with msg_type := some "already_exists" },
        Nav.switchTo DState.addChannelGetLink) ∧
    (channel_url_step_db (some "https://t.me/chan")
      (handle_channel_forward (some ⟨1, "Chan", "chan"⟩) emptyDialog
        exChannelStore).1 exChannelStore "False" "").2 = exChannelStore := by
  have h := channel_dup_forward_amended exChannelStore ⟨1, "Chan", "chan"⟩
    emptyDialog exChannelRow (by decide) rfl (some "https://t.me/chan")
    (by decide) AddOutcome.ok "False" ""
  exact ⟨h.1, h.2.2⟩

/-- C4 counterexample: run against the spec-modelled store that already
holds chat 1, the add raises a duplicate-key error, the discriminator is
set to already-exists and no write occurs, but the conversation does NOT
stay in the URL input state: the finally clause ends the flow and returns
to the main OP menu. -/
theorem dup_add_does_not_stay_cex :
    (channel_url_step_db (some "https://t.me/chan")
      ⟨none, some ⟨"Chan", 1, "chan"⟩, none, none, none⟩ exChannelStore
      "False" "").1.nav = Nav.doneAndStart DState.opMenu ∧
    (channel_url_step_db (some "https://t.me/chan")
      ⟨none, some ⟨"Chan", 1, "chan"⟩, none, none, none⟩ exChannelStore
      "False" "").1.nav ≠ Nav.stay ∧
    (channel_url_step_db (some "https://t.me/chan")
      ⟨none, some ⟨"Chan", 1, "chan"⟩, none, none, none⟩ exChannelStore
      "False" "").1.dlg.msg_type = some "already_exists" ∧
    (channel_url_step_db (some "https://t.me/chan")
      ⟨none, some ⟨"Chan", 1, "chan"⟩, none, none, none⟩ exChannelStore
      "False" "").2 = exChannelStore := by decide

/-- C4 amended: on a duplicate-key error raised by add, the discriminator
is set to already-exists and no partial write occurs (the spec-modelled
store is returned unchanged), but the flow terminates to the main OP menu
instead of staying in the input state; stated for both the channel URL
step and the bot name step. -/
theorem dup_add_amended
    (t : Option String) (d : DialogData) (cd : ChannelScratch)
    (store : ChannelStore) (row : ChannelRow) (status extra : String)
    (hb : blankText t = false) (hd : d.channel_data = some cd)
    (hdup : getChannel store cd.channel_id = some row)
    (t2 : Option String) (d2 : DialogData) (bstore : BotStore) (brow : BotRow)
    (bstatus : String) (hb2 : blankText t2 = false)
    (hbu : blankText d2.bot_username = false)
    (hbl : blankText d2.bot_url = false)
    (hbdup : getBot bstore (d2.bot_username.getD "") = some brow) :
    (channel_url_step_db t d store status extra).1.dlg =
      { d with msg_type := some "already_exists" } ∧
    (channel_url_step_db t d store status extra).1.nav =
      Nav.doneAndStart DState.opMenu ∧
    (channel_url_step_db t d store status extra).2 = store ∧
    (bot_name_step_db t2 d2 bstore bstatus).1.dlg =
      { d2 with msg_type := some "already_exists" } ∧
    (bot_name_step_db t2 d2 bstore bstatus).1.nav =
      Nav.doneAndStart DState.opMenu ∧
    (bot_name_step_db t2 d2 bstore bstatus).2 = bstore := by
  have hcall : (handle_channel_url_input t d AddOutcome.ok).addCall =
      some ⟨cd.channel_id, cd.channel_name, cd.channel_username,
        pyStrip (t.getD "")⟩ := by
    simp [handle_channel_url_input, hb, hd]
  have hmodel : addChannelModel store
      (channelRowOfArgs ⟨cd.channel_id, cd.channel_name, cd.channel_username,
        pyStrip (t.getD "")⟩ status extra) = (AddOutcome.uniqueViolation, store) := by
    simp [addChannelModel, channelRowOfArgs, hdup]
  have hstep : channel_url_step_db t d store status extra =
      (handle_channel_url_input t d AddOutcome.uniqueViolation, store) := by
    simp [channel_url_step_db, hcall, hmodel]
  have hdup_run : handle_channel_url_input t d AddOutcome.uniqueViolation =
      ⟨{ d with msg_type := some "already_exists" },
        Nav.doneAndStart DState.opMenu,
        some ⟨cd.channel_id, cd.channel_name, cd.channel_username,
          pyStrip (t.getD "")⟩⟩ := by
    simp [handle_channel_url_input, hb, hd]
  have hbcall : (handle_bot_name_input t2 d2 AddOutcome.ok).addCall =
      some ⟨pyStrip (t2.getD ""), d2.bot_username.getD "",
        d2.bot_url.getD ""⟩ := by
    simp [handle_bot_name_input, hb2, hbu, hbl]
  have hbmodel : addBotModel bstore
      (botRowOfArgs ⟨pyStrip (t2.getD ""), d2.bot_username.getD "",
        d2.bot_url.getD ""⟩ bstatus) = (AddOutcome.uniqueViolation, bstore) := by
    simp [addBotModel, botRowOfArgs, hbdup]
  have hbstep : bot_name_step_db t2 d2 bstore bstatus =
      (handle_bot_name_input t2 d2 AddOutcome.uniqueViolation, bstore) := by
    simp [bot_name_step_db, hbcall, hbmodel]
  have hbdup_run : handle_bot_name_input t2 d2 AddOutcome.uniqueViolation =
      ⟨{ d2 with msg_type := some "already_exists" },
        Nav.doneAndStart DState.opMenu,
        some ⟨pyStrip (t2.getD ""), d2.bot_username.getD "",
          d2.bot_url.getD ""⟩⟩ := by
    simp [handle_bot_name_input, hb2, hbu, hbl]
  rw [hstep, hbstep, hdup_run, hbdup_run]
  exact ⟨rfl, rfl, rfl, rfl, rfl, rfl⟩

/-- Closed witness for dup_add_amended at the concrete fixtures. -/
theorem dup_add_amended_witness :
    (channel_url_step_db (some "https://t.me/chan")
      ⟨none, some ⟨"Chan", 1, "chan"⟩, none, none, none⟩ exChannelStore
      "False" "").1.dlg =
      { msg_type := some "already_exists",
        channel_data := some ⟨"Chan", 1, "chan"⟩, channel_id := none,
        bot_username := none, bot_url := none } ∧
    (bot_name_step_db (some "Example Bot")
      ⟨none, none, none, some "examplebot", some "https://t.me/examplebot"⟩
      exBotStore "False").1.nav = Nav.doneAndStart DState.opMenu ∧
    (bot_name_step_db (some "Example Bot")
      ⟨none, none, none, some "examplebot", some "https://t.me/examplebot"⟩
      exBotStore "False").2 = exBotStore := by
  have h := dup_add_amended (some "https://t.me/chan")
    ⟨none, some ⟨"Chan", 1, "chan"⟩, none, none, none⟩ ⟨"Chan", 1, "chan"⟩
    exChannelStore exChannelRow "False" "" (by decide) rfl (by decide)
    (some "Example Bot")
    ⟨none, none, none, some "examplebot", some "https://t.me/examplebot"⟩
    exBotStore exBotRow "False" (by decide) (by decide) (by decide) (by decide)
  exact ⟨h.1, h.2.2.2.2.1, h.2.2.2.2.2⟩

/-- C6 counterexample: on input with two leading at-signs the handler
stores the text with ALL leading at-signs removed, while the claim
prescribes removing exactly one and keeping the rest as given. -/
theorem bot_username_strip_cex :
    (handle_bot_username_input (some "@@examplebot") emptyDialog
      emptyBotStore).1.bot_username = some "examplebot" ∧
    specStripOneAt "@@examplebot" = "@examplebot" ∧
    ("examplebot" : String) ≠ "@examplebot" := by decide

/-- C6 amended: the stored handle is the input stripped of surrounding
whitespace with EVERY leading at-sign removed; if an entity with that
handle already exists the flow stays in the username state with
discriminator already-exists, otherwise the handle is stashed and the flow
advances to the URL state. -/
theorem bot_username_amended (t : Option String) (d : DialogData)
    (store : BotStore) (hb : blankText t = false) :
    (getBot store (pyLstripAt (pyStrip (t.getD ""))) ≠ none →
      handle_bot_username_input t d store =
        ({ d with msg_type := some "already_exists" }, Nav.stay)) ∧
    (getBot store (pyLstripAt (pyStrip (t.getD ""))) = none →
      handle_bot_username_input t d store =
        ({ d with bot_username := some (pyLstripAt (pyStrip (t.getD ""))) },
          Nav.switchTo DState.addBotGetLink)) := by
  constructor
  · intro h
    rcases hg : getBot store (pyLstripAt (pyStrip (t.getD ""))) with _ | b
    · exact absurd hg h
    · simp [handle_bot_username_input, hb, hg]
  · intro h
    simp [handle_bot_username_input, hb, h]

/-- Closed witness for bot_username_amended: a fresh handle is stashed and
the flow advances; an existing handle stays with the already-exists
discriminator. -/
theorem bot_username_amended_witness :
    handle_bot_username_input (some " @examplebot ") emptyDialog
      emptyBotStore =
      ({ emptyDialog with bot_username := some "examplebot" },
        Nav.switchTo DState.addBotGetLink) ∧
    handle_bot_username_input (some "@examplebot") emptyDialog exBotStore =
      ({ emptyDialog with msg_type := some "already_exists" }, Nav.stay) := by
  constructor
  · have h := (bot_username_amended (some " @examplebot ") emptyDialog
      emptyBotStore (by decide)).2 (by decide)
    simpa using h
  · have h := (bot_username_amended (some "@examplebot") emptyDialog
      exBotStore (by decide)).1 (by decide)
    simpa using h

/-- C7 counterexample: on a non-forwarded message the handler does mutate
the session scratch record: the message-type discriminator changes, so the
claim that neither the store nor the session state is mutated fails. -/
theorem validation_no_mutation_cex :
    (handle_channel_forward none emptyDialog exChannelStore).1 ≠
      emptyDialog := by decide

/-- C7 amended: on wrong-shaped input (a non-forwarded message at the
forward step, a non-text message at a text step) each handler re-prompts
by setting only the message-type discriminator to the specific variant,
stays in the same state, issues no store operation, and leaves every other
session field and the store unchanged. -/
theorem validation_error_amended (d : DialogData) (store : ChannelStore)
    (bstore : BotStore) (t : Option String) (o : AddOutcome)
    (ht : blankText t = true) (status extra bstatus : String) :
    handle_channel_forward none d store =
      ({ d with msg_type := some "not_forwarded" }, Nav.stay) ∧
    handle_channel_url_input t d o =
      ⟨{ d with msg_type := some "error_format" }, Nav.stay, none⟩ ∧
    (channel_url_step_db t d store status extra).2 = store ∧
    handle_bot_username_input t d bstore =
      ({ d with msg_type := some "error_format" }, Nav.stay) ∧
    handle_bot_url_input t d =
      ({ d with msg_type := some "error_format" }, Nav.stay) ∧
    handle_bot_name_input t d o =
      ⟨{ d with msg_type := some "error_format" }, Nav.stay, none⟩ ∧
    (bot_name_step_db t d bstore bstatus).2 = bstore := by
  refine ⟨rfl, ?_, ?_, ?_, ?_, ?_, ?_⟩ <;>
    simp [handle_channel_url_input, handle_bot_username_input,
      handle_bot_url_input, handle_bot_name_input, channel_url_step_db,
      bot_name_step_db, ht]

/-- Closed witness for validation_error_amended on a fresh dialog and a
non-text input. -/
theorem validation_error_amended_witness :
    handle_channel_forward none emptyDialog exChannelStore =
      ({ emptyDialog with msg_type := some "not_forwarded" }, Nav.stay) ∧
    handle_channel_url_input none emptyDialog AddOutcome.ok =
      ⟨{ emptyDialog with msg_type := some "error_format" }, Nav.stay,
        none⟩ ∧
    (channel_url_step_db none emptyDialog exChannelStore "False" "").2 =
      exChannelStore := by
  have h := validation_error_amended emptyDialog exChannelStore exBotStore
    none AddOutcome.ok rfl "False" "" "False"
  exact ⟨h.1, h.2.1, h.2.2.1⟩

/-- C8: the detail view renders the not-found placeholder with the
disabled toggle label when the entity is absent; when present it renders
the entity fields (the formatted text contains the name, the URL and the
key) and a toggle button whose label is chosen by whether the stored
active-status equals "True"; stated for both the channel and the bot view
getters. -/
theorem detail_view_correct
    (s1 : ChannelStore) (id1 : Int) (hnone : getChannel s1 id1 = none)
    (s2 : ChannelStore) (id2 : Int) (c : ChannelRow)
    (hsome : getChannel s2 id2 = some c)
    (b1 : BotStore) (u1 : String) (hbnone : getBot b1 u1 = none)
    (b2 : BotStore) (u2 : String) (b : BotRow)
    (hbsome : getBot b2 u2 = some b) :
    get_channel_info_data s1 id1 = ⟨"❌ Канал не найден", "—"⟩ ∧
    (get_channel_info_data s2 id2).op_button =
      (if c.status == "True" then "🚫 Убрать из ОП"
        else "➕ Добавить в ОП") ∧
    (∃ x y, (get_channel_info_data s2 id2).channel_data =
      x ++ c.channel_name ++ y) ∧
    (∃ x y, (get_channel_info_data s2 id2).channel_data =
      x ++ c.channel_url ++ y) ∧
    (∃ x y, (get_channel_info_data s2 id2).channel_data =
      x ++ toString c.channel_id ++ y) ∧
    get_bot_info_data b1 u1 = ⟨"❌ Бот не найден", "—"⟩ ∧
    (get_bot_info_data b2 u2).op_button =
      (if b.status == "True" then "🚫 Убрать из ОП"
        else "➕ Добавить в ОП") ∧
    (∃ x y, (get_bot_info_data b2 u2).bot_data = x ++ b.bot_name ++ y) ∧
    (∃ x y, (get_bot_info_data b2 u2).bot_data = x ++ b.bot_url ++ y) ∧
    (∃ x y, (get_bot_info_data b2 u2).bot_data = x ++ b.bot_username ++ y) := by
  have hview : (get_channel_info_data s2 id2).channel_data =
      channelInfoText c := by
    simp [get_channel_info_data, hsome]
  have hbview : (get_bot_info_data b2 u2).bot_data = botInfoText b := by
    simp [get_bot_info_data, hbsome]
  refine ⟨?_, ?_, ?_, ?_, ?_, ?_, ?_, ?_, ?_, ?_⟩
  · simp [get_channel_info_data, hnone]
  · simp [get_channel_info_data, hsome]
  · refine ⟨"📢 <b>Полная информация о канале</b>\n\n🆔 <b>ID:</b> <code>"
      ++ toString c.channel_id ++ "</code>\n📛 <b>Название:</b> ",
      "\n🔗 <b>Username:</b> @"
      ++ (if c.channel_username == "" then "не указан" else c.channel_username)
      ++ "\n📶 <b>Статус в ОП:</b> "
      ++ (if c.status == "True" then "✅ Активен" else "❌ Неактивен")
      ++ "\n🔗 <b>Ссылка:</b> " ++ c.channel_url ++ "\n", ?_⟩
    rw [hview]
    simp [channelInfoText, String.append_assoc]
  · refine ⟨"📢 <b>Полная информация о канале</b>\n\n🆔 <b>ID:</b> <code>"
      ++ toString c.channel_id ++ "</code>\n📛 <b>Название:</b> "
      ++ c.channel_name ++ "\n🔗 <b>Username:</b> @"
      ++ (if c.channel_username == "" then "не указан" else c.channel_username)
      ++ "\n📶 <b>Статус в ОП:</b> "
      ++ (if c.status == "True" then "✅ Активен" else "❌ Неактивен")
      ++ "\n🔗 <b>Ссылка:</b> ", "\n", ?_⟩
    rw [hview]
    simp [channelInfoText, String.append_assoc]
  · refine ⟨"📢 <b>Полная информация о канале</b>\n\n🆔 <b>ID:</b> <code>",
      "</code>\n📛 <b>Название:</b> " ++ c.channel_name
      ++ "\n🔗 <b>Username:</b> @"
      ++ (if c.channel_username == "" then "не указан" else c.channel_username)
      ++ "\n📶 <b>Статус в ОП:</b> "
      ++ (if c.status == "True" then "✅ Активен" else "❌ Неактивен")
      ++ "\n🔗 <b>Ссылка:</b> " ++ c.channel_url ++ "\n", ?_⟩
    rw [hview]
    simp [channelInfoText, String.append_assoc]
  · simp [get_bot_info_data, hbnone]
  · simp [get_bot_info_data, hbsome]
  · refine ⟨"🤖 <b>Полная информация о боте</b>\n\n📛 <b>Название:</b> ",
      "\n🔗 <b>Username:</b> @" ++ b.bot_username
      ++ "\n📶 <b>Статус в ОП:</b> "
      ++ (if b.status == "True" then "✅ Активен" else "❌ Неактивен")
      ++ "\n🔗 <b>Ссылка:</b> " ++ b.bot_url ++ "\n", ?_⟩
    rw [hbview]
    simp [botInfoText, String.append_assoc]
  · refine ⟨"🤖 <b>Полная информация о боте</b>\n\n📛 <b>Название:</b> "
      ++ b.bot_name ++ "\n🔗 <b>Username:</b> @" ++ b.bot_username
      ++ "\n📶 <b>Статус в ОП:</b> "
      ++ (if b.status == "True" then "✅ Активен" else "❌ Неактивен")
      ++ "\n🔗 <b>Ссылка:</b> ", "\n", ?_⟩
    rw [hbview]
    simp [botInfoText, String.append_assoc]
  · refine ⟨"🤖 <b>Полная информация о боте</b>\n\n📛 <b>Название:</b> "
      ++ b.bot_name ++ "\n🔗 <b>Username:</b> @",
      "\n📶 <b>Статус в ОП:</b> "
      ++ (if b.status == "True" then "✅ Активен" else "❌ Неактивен")
      ++ "\n🔗 <b>Ссылка:</b> " ++ b.bot_url ++ "\n", ?_⟩
    rw [hbview]
    simp [botInfoText, String.append_assoc]

/-- Closed witness for detail_view_correct at the concrete fixtures. -/
theorem detail_view_correct_witness :
    get_channel_info_data emptyChannelStore 5 =
      ⟨"❌ Канал не найден", "—"⟩ ∧
    (get_channel_info_data exChannelStore 1).op_button = "🚫 Убрать из ОП" ∧
    get_bot_info_data emptyBotStore "nobody" = ⟨"❌ Бот не найден", "—"⟩ ∧
    (get_bot_info_data exBotStore "examplebot").op_button =
      "➕ Добавить в ОП" := by
  have h := detail_view_correct emptyChannelStore 5 rfl exChannelStore 1
    exChannelRow (by decide) emptyBotStore "nobody" rfl exBotStore
    "examplebot" exBotRow (by decide)
  refine ⟨h.1, ?_, h.2.2.2.2.2.1, ?_⟩
  · have h2 := h.2.1
    simpa [exChannelRow] using h2
  · have h2 := h.2.2.2.2.2.2.1
    simpa [exBotRow] using h2

/-- Closed witness for membership_gate_active_only on the three-channel
example: only the two active channels are queried and exactly the channel
whose role is unsatisfying is returned. -/
theorem membership_gate_active_only_witness :
    (check_channel_sub (fun i => if i == 1 then "member" else "left")
      [⟨1, "A", "a", "True", "", "u1"⟩, ⟨2, "B", "b", "False", "", "u2"⟩,
        ⟨3, "C", "c", "True", "", "u3"⟩]).1 = [1, 3] ∧
    (check_channel_sub (fun i => if i == 1 then "member" else "left")
      [⟨1, "A", "a", "True", "", "u1"⟩, ⟨2, "B", "b", "False", "", "u2"⟩,
        ⟨3, "C", "c", "True", "", "u3"⟩]).2 =
      [⟨3, "C", "c", "True", "", "u3"⟩] ∧
    ∃ c ∈ ([⟨1, "A", "a", "True", "", "u1"⟩, ⟨2, "B", "b", "False", "", "u2"⟩,
        ⟨3, "C", "c", "True", "", "u3"⟩] : List ChannelRow),
      c.channel_id = 3 ∧ c.status = "True" := by
  have h := membership_gate_active_only
    (fun i => if i == 1 then "member" else "left")
    [⟨1, "A", "a", "True", "", "u1"⟩, ⟨2, "B", "b", "False", "", "u2"⟩,
      ⟨3, "C", "c", "True", "", "u3"⟩]
  refine ⟨?_, ?_, h.2.2 3 (by decide)⟩
  · rw [h.1]
    decide
  · rw [h.2.1]
    decide
